import Mathlib

/-!
Shallow embedding of the query-routing chatbot repository
(files src/chatbot.py, src/sql_query_system.py, src/rag_system.py).

Python strings are modelled as `List Char`; `str.upper` / `str.lower` as
`Char.toUpper` / `Char.toLower` mapped over the list (faithful on the ASCII
alphabet, which is all the embedded keyword logic touches); the substring
test `needle in hay` as `hasSubstr`; exceptions as `Except`.  External
collaborators (the generative-model chain, the live database connection,
the text splitter) are passed in as explicit function parameters, so each
theorem quantifies over every possible behaviour of the collaborator.
-/

namespace RldChatbox

/-- Python `needle in hay` (substring containment) on char lists. -/
def hasSubstr : List Char → List Char → Bool
  | [], needle => needle.isEmpty
  | c :: t, needle => needle.isPrefixOf (c :: t) || hasSubstr t needle

/-- Characters removed by Python `str.strip()` and matched by the regex
class `\s` (the ASCII whitespace relevant to this code base). -/
def isPySpace (c : Char) : Bool :=
  c = ' ' || c = '\t' || c = '\n' || c = '\r' || c = '\u000B' || c = '\u000C'

/-- Python `str.strip()`: remove leading and trailing whitespace. -/
def pyStrip (s : List Char) : List Char :=
  ((s.dropWhile isPySpace).reverse.dropWhile isPySpace).reverse

/-! ## Safety gate — sql_query_system.py, `_is_safe_query` / `execute_query` -/

/-- The denylist of `_is_safe_query` (sql_query_system.py line 252). -/
def unsafe_keywords : List (List Char) :=
  [("INSERT".data), ("UPDATE".data), ("DELETE".data), ("DROP".data),
   ("ALTER".data), ("CREATE".data), ("TRUNCATE".data)]

/-- `_is_safe_query` (sql_query_system.py lines 242-255): uppercase the query
and reject it when any denylisted keyword occurs as a substring. -/
def is_safe_query (sql_query : List Char) : Bool :=
  !(unsafe_keywords.any fun kw => hasSubstr (sql_query.map Char.toUpper) kw)

/-- The `ValueError` message raised by `execute_query` on an unsafe query. -/
def unsafeMsg : List Char :=
  "Query contains unsafe operations (INSERT, UPDATE, DELETE, DROP)".data

/-- One result row: ordered (column, value) pairs, values pre-rendered to
their `str()` form (the code only ever displays them). -/
def Row : Type := List (List Char × List Char)

/-- `_generate_mock_results` (sql_query_system.py lines 257-304): canned rows
keyed on substrings of the lowercased query. -/
def generate_mock_results (sql_query : List Char) : List Row :=
  if hasSubstr (sql_query.map Char.toLower) ("modules".data) then
    [[(("customer_name".data), ("ACME Corp".data)),
      (("module_name".data), ("Inventory Management".data)),
      (("purchased_date".data), ("2023-01-15".data))],
     [(("customer_name".data), ("ACME Corp".data)),
      (("module_name".data), ("Reporting Suite".data)),
      (("purchased_date".data), ("2023-03-22".data))]]
  else if hasSubstr (sql_query.map Char.toLower) ("expiration".data) then
    [[(("contract_id".data), ("12345".data)),
      (("customer_name".data), ("ACME Corp".data)),
      (("expiration_date".data), ("2024-12-31".data))]]
  else if hasSubstr (sql_query.map Char.toLower) ("pricing".data) then
    [[(("customer_name".data), ("ACME Corp".data)),
      (("pricing".data), ("25000.0".data))]]
  else
    [[(("contract_id".data), ("12345".data)),
      (("customer_name".data), ("ACME Corp".data)),
      (("expiration_date".data), ("2024-12-31".data)),
      (("pricing".data), ("25000.0".data)),
      (("status".data), ("Active".data))]]

/-- `execute_query` (sql_query_system.py lines 212-240).  `live` is the
engine: `none` is mock mode (`self.engine is None`); `some exec` is a live
connection whose execution may raise (`Except.error`), which the code
catches and converts to an empty row list.  The unsafe-query `ValueError`
is the `Except.error` of the result. -/
def execute_query (live : Option (List Char → Except (List Char) (List Row)))
    (sql_query : List Char) : Except (List Char) (List Row) :=
  if !(is_safe_query sql_query) then Except.error unsafeMsg
  else
    match live with
    | none => Except.ok (generate_mock_results sql_query)
    | some exec =>
      match exec sql_query with
      | Except.ok rows => Except.ok rows
      | Except.error _ => Except.ok []

/-! ## Intent classification — chatbot.py, `classify_intent` -/

/-- `IntentType` (chatbot.py lines 21-27). -/
inductive IntentType where
  | USER_GUIDE
  | CONTRACT_INFO
  | GENERAL
deriving DecidableEq

/-- Number of keywords whose lowercase form occurs in the lowercased query
(the two `sum(1 for keyword ...)` comprehensions of `classify_intent`). -/
def countMatches (keywords : List (List Char)) (query_lower : List Char) : Nat :=
  (keywords.filter fun kw => hasSubstr query_lower (kw.map Char.toLower)).length

/-- `classify_intent` (chatbot.py lines 126-153). -/
def classify_intent (user_guide_keywords contract_keywords : List (List Char))
    (query : List Char) : IntentType :=
  if countMatches user_guide_keywords (query.map Char.toLower) <
      countMatches contract_keywords (query.map Char.toLower) then
    IntentType.CONTRACT_INFO
  else if 0 < countMatches user_guide_keywords (query.map Char.toLower) then
    IntentType.USER_GUIDE
  else
    IntentType.GENERAL

/-! ## Mock SQL generation — sql_query_system.py, `_generate_mock_sql` -/

/-- The expiration-lookup mock template (sql_query_system.py line 198). -/
def mockExpirationSql : List Char :=
  "SELECT contract_id, customer_name, expiration_date FROM contracts WHERE customer_name = 'Customer Name';".data

/-- The purchased-modules mock template (lines 200-206; a Python
triple-quoted string, hence the surrounding newlines). -/
def mockModulesSql : List Char :=
  "\nSELECT c.customer_name, m.module_name, cm.purchased_date\nFROM contracts c\nJOIN contract_modules cm ON c.contract_id = cm.contract_id\nJOIN modules m ON cm.module_id = m.module_id\nWHERE c.customer_name = 'Customer Name';\n".data

/-- The pricing mock template (line 208). -/
def mockPricingSql : List Char :=
  "SELECT customer_name, pricing FROM contracts WHERE customer_name = 'Customer Name';".data

/-- The default mock template (line 210). -/
def mockDefaultSql : List Char :=
  "SELECT * FROM contracts WHERE customer_name = 'Customer Name' LIMIT 5;".data

/-- `_generate_mock_sql` (sql_query_system.py lines 185-210). -/
def generate_mock_sql (question : List Char) : List Char :=
  if hasSubstr (question.map Char.toLower) ("expiration".data) ||
      hasSubstr (question.map Char.toLower) ("expires".data) then
    mockExpirationSql
  else if hasSubstr (question.map Char.toLower) ("modules".data) ||
      hasSubstr (question.map Char.toLower) ("purchased".data) then
    mockModulesSql
  else if hasSubstr (question.map Char.toLower) ("pricing".data) ||
      hasSubstr (question.map Char.toLower) ("cost".data) then
    mockPricingSql
  else
    mockDefaultSql

/-! ## Translator output cleanup — sql_query_system.py, `natural_language_to_sql` -/

/-- Keyword match at the head of `s`, as the regex `(KW\s+.*)` with
`IGNORECASE | DOTALL` matches at one position: the keyword (uppercase ASCII)
matches case-insensitively and is followed by at least one whitespace
character. -/
def matchesAt (kw s : List Char) : Bool :=
  kw.isPrefixOf (s.map Char.toUpper) &&
    (match s.drop kw.length with
     | [] => false
     | c :: _ => isPySpace c)

/-- Leftmost position at which `kw` matches (what `re.search` finds),
counting from `i`. -/
def findKwAux (kw : List Char) : List Char → Nat → Option Nat
  | [], _ => none
  | c :: t, i => if matchesAt kw (c :: t) then some i else findKwAux kw t (i + 1)

/-- The `sql_keywords` list of the extraction loop (sql_query_system.py
line 172), in its exact order — the loop breaks at the FIRST list entry
that matches anywhere, not at the earliest-positioned keyword. -/
def sql_keywords : List (List Char) :=
  [("SELECT".data), ("INSERT".data), ("UPDATE".data), ("DELETE".data),
   ("WITH".data), ("CREATE".data), ("DROP".data), ("ALTER".data)]

/-- The keyword-extraction step (sql_query_system.py lines 169-178): for
each keyword in order, search `(KW\s+.*)`; on the first keyword that
matches, keep from the match to the end of the string, stripped. -/
def extract_sql_statement (s : List Char) : List Char :=
  match sql_keywords.findSome?
      (fun kw => (findKwAux kw s 0).map fun i => pyStrip (s.drop i)) with
  | some r => r
  | none => s

/-- Python `s.split(sep, 1)[1]`: everything after the first occurrence of
`sep` (only called when `sep` occurs). -/
def dropThroughFirst (sep : List Char) : List Char → List Char
  | [] => []
  | c :: t =>
    if sep.isPrefixOf (c :: t) then (c :: t).drop sep.length
    else dropThroughFirst sep t

/-- The leading labels removed after fence stripping (sql_query_system.py
line 163); the loop breaks on the first matching label. -/
def labels_list : List (List Char) :=
  [("SQL:".data), ("Query:".data), ("sql:".data), ("query:".data)]

/-- The label-removal loop (sql_query_system.py lines 162-167). -/
def strip_leading_label (s : List Char) : List Char :=
  match labels_list.find? (fun p => p.isPrefixOf s) with
  | some p => pyStrip (s.drop p.length)
  | none => s

/-- The full cleanup pass applied to the model's raw output
(sql_query_system.py lines 146-180): strip, cut at `SQLQuery:`, strip code
fences, strip leading labels, then keyword extraction. -/
def clean_sql_output (raw : List Char) : List Char :=
  let s1 := pyStrip raw
  let s2 := if hasSubstr s1 ("SQLQuery:".data) then
      pyStrip (dropThroughFirst ("SQLQuery:".data) s1)
    else s1
  let s3 := if ("```sql".data).isPrefixOf s2 then pyStrip (s2.drop 6)
    else if ("```".data).isPrefixOf s2 then pyStrip (s2.drop 3)
    else s2
  let s4 := if ("```".data).isSuffixOf s3 then pyStrip (s3.take (s3.length - 3))
    else s3
  extract_sql_statement (strip_leading_label s4)

/-- `natural_language_to_sql` (sql_query_system.py lines 127-183).
`dbLive = false` models `self.db is None` (mock mode); in live mode the
generative chain `chain` may raise (`Except.error`), which the code catches,
returning the empty string. -/
def natural_language_to_sql (dbLive : Bool)
    (chain : List Char → Except (List Char) (List Char))
    (question : List Char) : List Char :=
  if dbLive = false then generate_mock_sql question
  else
    match chain question with
    | Except.ok raw => clean_sql_output raw
    | Except.error _ => []

/-! ## Result formatting — sql_query_system.py, `format_results` -/

/-- One numbered block of the multi-row branch: the `"\nResult {i}:"` header
line followed by the indented `"  key: value"` lines. -/
def resultBlock (i : Nat) (r : Row) : List (List Char) :=
  (("\nResult ".data) ++ (Nat.repr i).data ++ (":".data)) ::
    r.map fun kv => ("  ".data) ++ kv.1 ++ (": ".data) ++ kv.2

/-- `format_results` (sql_query_system.py lines 306-329). -/
def format_results : List Row → List Char
  | [] => "No results found.".data
  | [r] =>
    List.intercalate ("\n".data) (r.map fun kv => kv.1 ++ (": ".data) ++ kv.2)
  | r1 :: r2 :: rest =>
    List.intercalate ("\n".data)
      (((r1 :: r2 :: rest).enum.flatMap fun ir => resultBlock (ir.1 + 1) ir.2))

/-! ## Conversation memory — chatbot.py, `_initialize_memory` /
`get_conversation_history`, over langchain's `ConversationBufferWindowMemory` -/

/-- Message role (`HumanMessage` vs `AIMessage`). -/
inductive Role where
  | user
  | assistant
deriving DecidableEq

/-- `ConversationBufferWindowMemory(k=max_history, return_messages=True)`:
the underlying `chat_memory.messages` log plus the window parameter `k`.
The library appends without bound and truncates at READ time. -/
structure WindowMemory where
  k : Nat
  messages : List (Role × List Char)

/-- `memory.save_context({"input": q}, {"output": a})` (chatbot.py lines
307-311): appends a `HumanMessage` then an `AIMessage` to the log. -/
def save_context (m : WindowMemory) (inp outp : List Char) : WindowMemory :=
  { m with messages := m.messages ++ [(Role.user, inp), (Role.assistant, outp)] }

/-- `load_memory_variables({})['history']` with `return_messages=True`:
the library returns `chat_memory.messages[-k * 2:]` when `k > 0`, else `[]`
(Python `l[-n:]` for `0 < n` is `drop (length - n)`). -/
def load_memory_history (m : WindowMemory) : List (Role × List Char) :=
  if 0 < m.k then m.messages.drop (m.messages.length - m.k * 2) else []

/-- `get_conversation_history` (chatbot.py lines 332-351): every returned
message is a `HumanMessage` or an `AIMessage`, so the role-dict mapping is
length- and order-preserving; the history is the windowed message list. -/
def get_conversation_history (m : WindowMemory) : List (Role × List Char) :=
  load_memory_history m

/-- A sequence of completed requests: each `process_query` call ends in one
`save_context` with the (question, answer) pair (chatbot.py lines 307-311). -/
def runRequests (k : Nat) (reqs : List (List Char × List Char)) : WindowMemory :=
  reqs.foldl (fun m r => save_context m r.1 r.2) { k := k, messages := [] }

/-! ## Vector store construction — rag_system.py, `create_vector_store` -/

/-- The `RAGSystem` state relevant to index construction: the loaded
documents and the (abstract) vector store handle. -/
structure RAGState where
  documents : List (List Char)
  vector_store : Option (List (List Char))

/-- The `ValueError` message of `create_vector_store` on an empty corpus. -/
def noDocsMsg : List Char :=
  "No documents loaded. Call load_documents() first.".data

/-- `create_vector_store` (rag_system.py lines 121-152).  `split` stands for
the text splitter plus embedding backend (an external collaborator);
`store_type` is `vector_config['type']` before lowering. -/
def create_vector_store (split : List (List Char) → List (List Char))
    (store_type : List Char) (st : RAGState) : Except (List Char) RAGState :=
  if st.documents.isEmpty then Except.error noDocsMsg
  else
    let chunks := split st.documents
    let stl := store_type.map Char.toLower
    if stl = ("chromadb".data) then
      Except.ok { st with vector_store := some chunks }
    else if stl = ("faiss".data) then
      Except.ok { st with vector_store := some chunks }
    else
      Except.error (("Unsupported vector store type: ".data) ++ stl)

/-! ## Helper lemmas -/

/-- `findKwAux kw t i = some j` means the keyword matches at offset `j - i`
into `t` and at no earlier offset (leftmost match, as `re.search`). -/
theorem findKwAux_spec (kw : List Char) :
    ∀ (t : List Char) (i j : Nat), findKwAux kw t i = some j →
      i ≤ j ∧ matchesAt kw (t.drop (j - i)) = true ∧
        ∀ d, d < j - i → matchesAt kw (t.drop d) = false := by
  intro t
  induction t with
  | nil => intro i j h; simp [findKwAux] at h
  | cons c t2 ih =>
    intro i j h
    unfold findKwAux at h
    by_cases hm : matchesAt kw (c :: t2) = true
    · rw [if_pos hm] at h
      injection h with h
      subst h
      refine ⟨le_refl _, by simpa using hm, ?_⟩
      intro d hd
      omega
    · rw [if_neg hm] at h
      obtain ⟨h1, h2, h3⟩ := ih (i + 1) j h
      refine ⟨by omega, ?_, ?_⟩
      · have he : j - i = (j - (i + 1)) + 1 := by omega
        rw [he, List.drop_succ_cons]
        exact h2
      · intro d hd
        cases d with
        | zero =>
          rw [List.drop_zero]
          exact Bool.eq_false_iff.mpr hm
        | succ d2 =>
          rw [List.drop_succ_cons]
          exact h3 d2 (by omega)

/-- `findSome?` over a decomposed list: when every earlier entry yields
`none` and `kw` yields `some v`, the overall result is `some v` — the
priority-order behaviour of a for-loop with break. -/
theorem findSome?_pre_none {α β : Type} (f : α → Option β) :
    ∀ (pre : List α) (kw : α) (post : List α) (v : β),
      (∀ k ∈ pre, f k = none) → f kw = some v →
      (pre ++ kw :: post).findSome? f = some v := by
  intro pre
  induction pre with
  | nil =>
    intro kw post v _ hf
    rw [List.nil_append, List.findSome?_cons, hf]
  | cons p ps ih =>
    intro kw post v hpre hf
    have hp : f p = none := hpre p (by simp)
    rw [List.cons_append, List.findSome?_cons, hp]
    exact ih kw post v (fun k hk => hpre k (by simp [hk])) hf

/-! ## C1 -/

/-- C1: every structured-query string containing a denylisted keyword as a
case-insensitive substring (here: the uppercase keyword occurs in the
uppercased query, which covers every casing variant) makes `execute_query`
signal the policy violation `ValueError` — on the live path and the mock
path alike — and rows (`Except.ok`) are only ever produced for strings that
pass `_is_safe_query`. -/
theorem C1_safety_gate_blocks
    (live : Option (List Char → Except (List Char) (List Row)))
    (q kw : List Char) (hmem : kw ∈ unsafe_keywords)
    (hsub : hasSubstr (q.map Char.toUpper) kw = true) :
    execute_query live q = Except.error unsafeMsg ∧
    (∀ live2 q2 rows, execute_query live2 q2 = Except.ok rows →
      is_safe_query q2 = true) := by
  have hany : (unsafe_keywords.any fun kw2 => hasSubstr (q.map Char.toUpper) kw2) = true :=
    List.any_eq_true.mpr ⟨kw, hmem, hsub⟩
  have hunsafe : is_safe_query q = false := by
    unfold is_safe_query
    rw [hany]
    rfl
  refine ⟨by simp [execute_query, hunsafe], ?_⟩
  intro live2 q2 rows h
  cases hs : is_safe_query q2 with
  | false => simp [execute_query, hs] at h
  | true => rfl

/-- C1 witness: the casing variant "DeLeTe" is blocked in mock mode. -/
theorem C1_safety_gate_blocks_witness :
    execute_query none ("DeLeTe FROM t".data) = Except.error unsafeMsg ∧
    (∀ live2 q2 rows, execute_query live2 q2 = Except.ok rows →
      is_safe_query q2 = true) :=
  C1_safety_gate_blocks none ("DeLeTe FROM t".data) ("DELETE".data)
    (by decide) (by decide)

/-! ## C2 -/

/-- C2: `classify_intent` returns CONTRACT_INFO exactly when the contract
keyword count strictly exceeds the user-guide count; otherwise USER_GUIDE
exactly when the user-guide count is positive; otherwise GENERAL; and on a
tie with both counts positive it returns USER_GUIDE. -/
theorem C2_classify_intent_decision (ugk ck : List (List Char)) (q : List Char) :
    (classify_intent ugk ck q = IntentType.CONTRACT_INFO ↔
      countMatches ugk (q.map Char.toLower) < countMatches ck (q.map Char.toLower)) ∧
    (classify_intent ugk ck q = IntentType.USER_GUIDE ↔
      (¬ countMatches ugk (q.map Char.toLower) < countMatches ck (q.map Char.toLower) ∧
        0 < countMatches ugk (q.map Char.toLower))) ∧
    (classify_intent ugk ck q = IntentType.GENERAL ↔
      (¬ countMatches ugk (q.map Char.toLower) < countMatches ck (q.map Char.toLower) ∧
        countMatches ugk (q.map Char.toLower) = 0)) ∧
    ((countMatches ck (q.map Char.toLower) = countMatches ugk (q.map Char.toLower) ∧
        0 < countMatches ugk (q.map Char.toLower)) →
      classify_intent ugk ck q = IntentType.USER_GUIDE) := by
  unfold classify_intent
  split_ifs with h1 h2 <;>
    refine ⟨?_, ?_, ?_, ?_⟩ <;>
    simp_all <;>
    omega

/-- C2 witness: a tie (one keyword from each list) with both counts
positive classifies as USER_GUIDE. -/
theorem C2_classify_intent_decision_witness :
    classify_intent [("how".data)] [("contract".data)]
      ("how is my contract".data) = IntentType.USER_GUIDE :=
  (C2_classify_intent_decision [("how".data)] [("contract".data)]
    ("how is my contract".data)).2.2.2 (by decide)

/-! ## C3 -/

/-- C3 counterexample: on "INSERT x SELECT y" the recognized keyword INSERT
occurs at the earliest position (it matches at the very head of the text),
yet the cleanup retains "SELECT y" — the suffix from the later SELECT —
because the loop tries keywords in list order, not position order.  So the
claim "retains the suffix beginning at the first (earliest-positioned)
occurrence of any such keyword" fails here. -/
theorem C3_counterexample :
    extract_sql_statement ("INSERT x SELECT y".data) = ("SELECT y".data) ∧
    clean_sql_output ("INSERT x SELECT y".data) = ("SELECT y".data) ∧
    matchesAt ("INSERT".data) ("INSERT x SELECT y".data) = true ∧
    ("SELECT y".data) ≠ ("INSERT x SELECT y".data) := by decide

/-- C3 amended: when `kw` is the first keyword in the fixed priority order
SELECT, INSERT, UPDATE, DELETE, WITH, CREATE, DROP, ALTER that matches
anywhere in the text (matching = case-insensitive occurrence followed by at
least one whitespace character), the cleanup retains the stripped suffix
beginning at the LEFTMOST match of that keyword. -/
theorem C3_amended_priority_extraction (s : List Char)
    (pre post : List (List Char)) (kw : List Char) (i : Nat)
    (hsplit : sql_keywords = pre ++ kw :: post)
    (hpre : ∀ k ∈ pre, findKwAux k s 0 = none)
    (hkw : findKwAux kw s 0 = some i) :
    extract_sql_statement s = pyStrip (s.drop i) ∧
    matchesAt kw (s.drop i) = true ∧
    ∀ j, j < i → matchesAt kw (s.drop j) = false := by
  obtain ⟨_, h2, h3⟩ := findKwAux_spec kw s 0 i hkw
  refine ⟨?_, by simpa using h2, fun j hj => by simpa using h3 j (by omega)⟩
  have hfind : (pre ++ kw :: post).findSome?
      (fun kw2 => (findKwAux kw2 s 0).map fun i2 => pyStrip (s.drop i2)) =
      some (pyStrip (s.drop i)) := by
    apply findSome?_pre_none
    · intro k hk
      rw [hpre k hk]
      rfl
    · rw [hkw]
      rfl
  unfold extract_sql_statement
  rw [hsplit, hfind]

/-- C3 amended witness: in "use SELECT x" the priority keyword SELECT
matches leftmost at index 4 and the extraction keeps the suffix from
there. -/
theorem C3_amended_priority_extraction_witness :
    extract_sql_statement ("use SELECT x".data) =
      pyStrip (("use SELECT x".data).drop 4) ∧
    matchesAt ("SELECT".data) (("use SELECT x".data).drop 4) = true ∧
    ∀ j, j < 4 → matchesAt ("SELECT".data) (("use SELECT x".data).drop j) = false :=
  C3_amended_priority_extraction ("use SELECT x".data) []
    [("INSERT".data), ("UPDATE".data), ("DELETE".data), ("WITH".data),
     ("CREATE".data), ("DROP".data), ("ALTER".data)]
    ("SELECT".data) 4 rfl (by simp) (by decide)

/-! ## C4 -/

/-- C4: the cleanup pass applied to the exact translator output
"Explanation...\n```sql\nSELECT * FROM contracts;\n```" yields exactly
"SELECT * FROM contracts;". -/
theorem C4_cleanup_concrete :
    clean_sql_output ("Explanation...\n```sql\nSELECT * FROM contracts;\n```".data) =
      ("SELECT * FROM contracts;".data) := by decide

/-! ## C5 -/

/-- C5 counterexample: the question "when does my contract expire" contains
the word "expire", which matches expir* (case-insensitively; the substring
"expir" occurs), yet the mock path returns the DEFAULT template, not the
expiration-lookup template — the code only checks for the substrings
"expiration" and "expires". -/
theorem C5_counterexample :
    hasSubstr (("when does my contract expire".data).map Char.toLower)
      ("expir".data) = true ∧
    generate_mock_sql ("when does my contract expire".data) = mockDefaultSql ∧
    mockDefaultSql ≠ mockExpirationSql := by decide

/-- C5 amended: in mock mode the translation is a total (never-raising)
deterministic function of the question, and every question containing
"expiration" or "expires" as a case-insensitive substring gets the
expiration-lookup template selecting contract_id, customer_name and
expiration_date from contracts. -/
theorem C5_amended_mock_expiration (question : List Char)
    (h : hasSubstr (question.map Char.toLower) ("expiration".data) = true ∨
      hasSubstr (question.map Char.toLower) ("expires".data) = true) :
    natural_language_to_sql false (fun _ => Except.error []) question =
      generate_mock_sql question ∧
    generate_mock_sql question = mockExpirationSql := by
  refine ⟨rfl, ?_⟩
  unfold generate_mock_sql
  rcases h with h | h <;> simp [h]

/-- C5 amended witness: a question containing "expiration" gets the
expiration template. -/
theorem C5_amended_mock_expiration_witness :
    natural_language_to_sql false (fun _ => Except.error [])
      ("when is the Expiration date".data) =
      generate_mock_sql ("when is the Expiration date".data) ∧
    generate_mock_sql ("when is the Expiration date".data) = mockExpirationSql :=
  C5_amended_mock_expiration ("when is the Expiration date".data)
    (Or.inl (by decide))

/-! ## C6 -/

/-- C6: no mock query ever contains a denylisted keyword, so on the mock
path the safety gate always passes and `execute_query` always returns rows
— the policy-violation branch is unreachable for mock-generated queries. -/
theorem C6_mock_sql_passes_gate (question : List Char) :
    is_safe_query (generate_mock_sql question) = true ∧
    execute_query none (generate_mock_sql question) =
      Except.ok (generate_mock_results (generate_mock_sql question)) := by
  have h : is_safe_query (generate_mock_sql question) = true := by
    unfold generate_mock_sql
    split_ifs <;> decide
  exact ⟨h, by simp [execute_query, h]⟩

/-! ## C7 -/

/-- The two messages one completed request appends to the log. -/
def pairMsgs (r : List Char × List Char) : List (Role × List Char) :=
  [(Role.user, r.1), (Role.assistant, r.2)]

theorem foldl_save_k (reqs : List (List Char × List Char)) :
    ∀ m : WindowMemory,
      (reqs.foldl (fun m2 r => save_context m2 r.1 r.2) m).k = m.k := by
  induction reqs with
  | nil => intro m; rfl
  | cons r rs ih =>
    intro m
    rw [List.foldl_cons]
    exact ih _

theorem foldl_save_messages (reqs : List (List Char × List Char)) :
    ∀ m : WindowMemory,
      (reqs.foldl (fun m2 r => save_context m2 r.1 r.2) m).messages =
        m.messages ++ reqs.flatMap pairMsgs := by
  induction reqs with
  | nil => intro m; simp
  | cons r rs ih =>
    intro m
    rw [List.foldl_cons, ih, List.flatMap_cons]
    simp [save_context, pairMsgs, List.append_assoc]

theorem runRequests_messages (k : Nat) (reqs : List (List Char × List Char)) :
    (runRequests k reqs).messages = reqs.flatMap pairMsgs := by
  unfold runRequests
  rw [foldl_save_messages]
  rfl

theorem length_flatMap_pairMsgs (reqs : List (List Char × List Char)) :
    (reqs.flatMap pairMsgs).length = reqs.length * 2 := by
  induction reqs with
  | nil => rfl
  | cons r rs ih =>
    rw [List.flatMap_cons, List.length_append, ih]
    simp [pairMsgs, List.length_cons]
    omega

theorem flatMap_pairMsgs_drop (reqs : List (List Char × List Char)) :
    ∀ m : Nat, (reqs.flatMap pairMsgs).drop (m * 2) = (reqs.drop m).flatMap pairMsgs := by
  induction reqs with
  | nil => intro m; simp
  | cons r rs ih =>
    intro m
    cases m with
    | zero => simp
    | succ m2 =>
      rw [List.flatMap_cons]
      have h2 : (m2 + 1) * 2 = (m2 * 2 + 1) + 1 := by ring
      rw [h2]
      show ((Role.user, r.1) :: (Role.assistant, r.2) :: rs.flatMap pairMsgs).drop
        ((m2 * 2 + 1) + 1) = ((r :: rs).drop (m2 + 1)).flatMap pairMsgs
      rw [List.drop_succ_cons, List.drop_succ_cons, List.drop_succ_cons]
      exact ih m2

/-- C7 counterexample: with window k = 1, after 2 completed requests the
history-read operation returns 2 turn entries, not 1 — the window bounds
(user, assistant) PAIRS, so the flat turn list has twice the window size. -/
theorem C7_counterexample :
    (get_conversation_history (runRequests 1
      [(("q1".data), ("a1".data)), (("q2".data), ("a2".data))])).length = 2 ∧
    (2 : Nat) ≠ 1 := by decide

/-- C7 amended: after M ≥ window completed requests the history returned by
the history-read operation is exactly the last `window` (user, assistant)
pairs in order — the oldest pairs are evicted first (FIFO) — and its length
is fixed at twice the window size (each retained request contributes one
user turn and one assistant turn). -/
theorem C7_amended_window (k : Nat) (reqs : List (List Char × List Char))
    (hk : 0 < k) (hlen : k ≤ reqs.length) :
    get_conversation_history (runRequests k reqs) =
      (reqs.drop (reqs.length - k)).flatMap pairMsgs ∧
    (get_conversation_history (runRequests k reqs)).length = k * 2 := by
  have hkk : (runRequests k reqs).k = k := foldl_save_k reqs _
  have hmsg : (runRequests k reqs).messages = reqs.flatMap pairMsgs :=
    runRequests_messages k reqs
  have hmain : get_conversation_history (runRequests k reqs) =
      (reqs.drop (reqs.length - k)).flatMap pairMsgs := by
    unfold get_conversation_history load_memory_history
    rw [hkk, hmsg, if_pos hk, length_flatMap_pairMsgs, ← Nat.sub_mul,
      flatMap_pairMsgs_drop]
  refine ⟨hmain, ?_⟩
  rw [hmain, length_flatMap_pairMsgs, List.length_drop]
  omega

/-- C7 amended witness: window 1, two requests — only the second pair
remains, giving history length 2. -/
theorem C7_amended_window_witness :
    get_conversation_history (runRequests 1
      [(("q1".data), ("a1".data)), (("q2".data), ("a2".data))]) =
      ([(("q1".data), ("a1".data)), (("q2".data), ("a2".data))].drop
        ([(("q1".data), ("a1".data)), (("q2".data), ("a2".data))].length - 1)).flatMap
        pairMsgs ∧
    (get_conversation_history (runRequests 1
      [(("q1".data), ("a1".data)), (("q2".data), ("a2".data))])).length = 1 * 2 :=
  C7_amended_window 1 [(("q1".data), ("a1".data)), (("q2".data), ("a2".data))]
    (by decide) (by decide)

/-! ## C8 -/

/-- C8: calling `create_vector_store` with zero loaded documents reports
the precondition failure (`ValueError`) and never produces a new state —
no index construction happens. -/
theorem C8_empty_corpus (split : List (List Char) → List (List Char))
    (store_type : List Char) (st : RAGState) (h : st.documents = []) :
    create_vector_store split store_type st = Except.error noDocsMsg ∧
    ∀ st2, create_vector_store split store_type st ≠ Except.ok st2 := by
  have he : st.documents.isEmpty = true := by rw [h]; rfl
  have h1 : create_vector_store split store_type st = Except.error noDocsMsg := by
    simp [create_vector_store, he]
  exact ⟨h1, fun st2 hc => by simp [h1] at hc⟩

/-- C8 witness: the empty state with a chromadb configuration. -/
theorem C8_empty_corpus_witness :
    create_vector_store id ("chromadb".data)
      { documents := [], vector_store := none } = Except.error noDocsMsg ∧
    ∀ st2, create_vector_store id ("chromadb".data)
      { documents := [], vector_store := none } ≠ Except.ok st2 :=
  C8_empty_corpus id ("chromadb".data)
    { documents := [], vector_store := none } rfl

/-! ## C9 -/

/-- C9: `format_results` maps zero rows to the "No results found." message;
exactly one row to flat "key: value" lines joined by newlines; and two or
more rows to numbered "Result i:" blocks with indented "  key: value"
lines. -/
theorem C9_format_results_shape (results : List Row) :
    (results = [] → format_results results = ("No results found.".data)) ∧
    (∀ r, results = [r] → format_results results =
      List.intercalate ("\n".data)
        (r.map fun kv => kv.1 ++ (": ".data) ++ kv.2)) ∧
    (2 ≤ results.length → format_results results =
      List.intercalate ("\n".data)
        (results.enum.flatMap fun ir => resultBlock (ir.1 + 1) ir.2)) := by
  refine ⟨?_, ?_, ?_⟩
  · rintro rfl; rfl
  · rintro r rfl; rfl
  · intro h
    cases results with
    | nil => simp at h
    | cons r1 rest =>
      cases rest with
      | nil => simp at h
      | cons r2 rest2 => rfl

/-- C9 witness: the zero-row branch at the empty list. -/
theorem C9_format_results_shape_witness :
    format_results [] = ("No results found.".data) :=
  (C9_format_results_shape []).1 rfl

/-! ## C10 -/

/-- C10: in live mode, when the generative chain raises,
`natural_language_to_sql` catches the exception and returns the empty
string, which then passes the safety gate. -/
theorem C10_live_chain_error (chain : List Char → Except (List Char) (List Char))
    (question err : List Char) (h : chain question = Except.error err) :
    natural_language_to_sql true chain question = [] ∧
    is_safe_query [] = true := by
  refine ⟨?_, by decide⟩
  simp [natural_language_to_sql, h]

/-- C10 witness: a chain that always raises yields the empty string. -/
theorem C10_live_chain_error_witness :
    natural_language_to_sql true (fun _ => Except.error []) [] = [] ∧
    is_safe_query [] = true :=
  C10_live_chain_error (fun _ => Except.error []) [] [] rfl

end RldChatbox
